import Mathlib

/-!
Shallow embedding of `src/app/main.py` (receipt-ingestion API).

The source is a single FastAPI module.  We embed:
  * the identifier generator `"RCP-" + datetime.now().strftime("%Y%m%d-%H%M%S")`;
  * the database-write block of `upload_receipt` (receipt insert followed by a
    loop of item inserts, each `conn.execute` autocommitting on its own — the
    source opens no explicit transaction);
  * `get_receipt` with its 404 branch and its dummy fallback;
  * `health_check`.

The database is modelled as lists of rows (`receipts`, `receipt_items`) in
insertion order.  Infrastructure faults (an exception raised by a statement)
are modelled by an oracle: `faults k = true` means the k-th statement of the
block raises, leaving the database unchanged by that statement, exactly as an
autocommitted statement that fails does.  `datetime.now()` is modelled by an
explicit `DateTime` argument.  Amounts are exact rationals (every literal in
the source, 15000.0 / 4500.0 / 6000.0, is an exact decimal).
-/

/-- A clock reading, second precision, as used by `datetime.now()`. -/
structure DateTime where
  year : Nat
  month : Nat
  day : Nat
  hour : Nat
  minute : Nat
  second : Nat
deriving DecidableEq, Repr

/-- Field ranges of a Python `datetime` value (`datetime.MINYEAR = 1`,
`datetime.MAXYEAR = 9999`). -/
def DateTime.Valid (t : DateTime) : Prop :=
  1 ≤ t.year ∧ t.year ≤ 9999 ∧ 1 ≤ t.month ∧ t.month ≤ 12 ∧ 1 ≤ t.day ∧ t.day ≤ 31 ∧
  t.hour < 24 ∧ t.minute < 60 ∧ t.second < 60

instance (t : DateTime) : Decidable t.Valid := by unfold DateTime.Valid; infer_instance

/-- The date part, as produced by `datetime.now().date()`. -/
structure Date where
  year : Nat
  month : Nat
  day : Nat
deriving DecidableEq, Repr

def DateTime.date (t : DateTime) : Date := ⟨t.year, t.month, t.day⟩

/-- The decimal digit character for `n % 10`. -/
def digitChar (n : Nat) : Char := Char.ofNat (48 + n % 10)

/-- Two-digit zero-padded decimal (strftime `%m`, `%d`, `%H`, `%M`, `%S`
on in-range values). -/
def pad2 (n : Nat) : List Char := [digitChar (n / 10), digitChar n]

/-- Four-digit zero-padded decimal (strftime `%Y` on 1..9999). -/
def pad4 (n : Nat) : List Char := [digitChar (n / 1000), digitChar (n / 100), digitChar (n / 10), digitChar n]

/-- `datetime.strftime("%Y%m%d-%H%M%S")`. -/
def fmtTimestampChars (t : DateTime) : List Char :=
  pad4 t.year ++ pad2 t.month ++ pad2 t.day ++ ('-' :: (pad2 t.hour ++ pad2 t.minute ++ pad2 t.second))

/-- `receipt_id = "RCP-" + datetime.now().strftime("%Y%m%d-%H%M%S")` (main.py:137). -/
def genReceiptId (t : DateTime) : String := "RCP-" ++ String.mk (fmtTimestampChars t)

/-- `date.isoformat()`: `YYYY-MM-DD`; also `strftime("%Y-%m-%d")` (main.py:236). -/
def isoDate (d : Date) : String := String.mk (pad4 d.year ++ ('-' :: pad2 d.month) ++ ('-' :: pad2 d.day))

/-- `datetime.isoformat()` to second precision, for the health timestamp. -/
def isoDateTime (t : DateTime) : String :=
  isoDate t.date ++ String.mk ('T' :: (pad2 t.hour ++ (':' :: pad2 t.minute) ++ (':' :: pad2 t.second)))

/-- A row of the `receipts` table, as inserted by main.py:147-151. -/
structure ReceiptRow where
  receipt_id : String
  merchant_name : String
  total_amount : Rat
  receipt_date : Date
  image_url : String
  status : String
deriving DecidableEq, Repr

/-- A row of the `receipt_items` table, as inserted by main.py:159-162. -/
structure ItemRow where
  receipt_id : String
  item_name : String
  quantity : Nat
  price : Rat
deriving DecidableEq, Repr

/-- The backing store: both tables, rows in insertion order. -/
structure DB where
  receipts : List ReceiptRow
  items : List ItemRow
deriving DecidableEq, Repr

/-- `SELECT ... FROM receipts WHERE receipt_id = $1` via `fetchrow` (main.py:194-198). -/
def fetchrowReceipt (db : DB) (rid : String) : Option ReceiptRow :=
  db.receipts.find? (fun r => r.receipt_id == rid)

/-- `SELECT ... FROM receipt_items WHERE receipt_id = $1` via `fetch` (main.py:204-208). -/
def fetchItemRows (db : DB) (rid : String) : List ItemRow :=
  db.items.filter (fun it => it.receipt_id == rid)

/-- Python `s.startswith(pre)`: code-point prefix test. -/
def strStartsWith (s pre : String) : Bool := s.data.take pre.data.length == pre.data

/-- An `HTTPException(status_code, detail)`. -/
structure HTTPError where
  status_code : Nat
  detail : String
deriving DecidableEq, Repr

deriving instance DecidableEq for Except

/-- The dummy item data of main.py:154-157. -/
def dummyItems : List (String × Nat × Rat) := [("아메리카노", 2, 4500), ("샌드위치", 1, 6000)]

/-- The item-insert loop of main.py:158-162.  Each `conn.execute` autocommits on
its own; `faults k = true` means the k-th statement of the surrounding block
raises, aborting the loop with the earlier inserts already committed. -/
def insertItems (db : DB) (rid : String) (its : List (String × Nat × Rat)) (faults : Nat → Bool)
    (k : Nat) : DB × Bool :=
  match its with
  | [] => (db, true)
  | (nm, q, p) :: rest =>
    if faults k then (db, false)
    else insertItems { db with items := db.items ++ [⟨rid, nm, q, p⟩] } rid rest faults (k + 1)

/-- The database-write block of `upload_receipt` (main.py:145-162): the receipt
insert (statement 0) followed by the item inserts (statements 1, 2).  The block
returns the resulting store and whether every statement succeeded (the branch
that picks the success message versus the save-failure message).  The source
opens no transaction: a statement that has run stays committed even when a
later one raises. -/
def saveReceipt (db : DB) (rid mname : String) (tot : Rat) (rdate : Date)
    (faults : Nat → Bool) : DB × Bool :=
  if faults 0 then (db, false)
  else
    insertItems
      { db with receipts := db.receipts ++
          [⟨rid, mname, tot, rdate, "s3://receipts/" ++ rid ++ ".jpg", "processed"⟩] }
      rid dummyItems faults 1

/-- The response model `ReceiptResponse` (main.py:49-56). -/
structure ReceiptResponse where
  receipt_id : String
  merchant_name : String
  total_amount : Rat
  date : String
  status : String
  message : String
deriving DecidableEq, Repr

/-- The uploaded file as FastAPI hands it over: name, declared content type,
raw bytes. -/
structure UploadFileDesc where
  filename : String
  content_type : String
  content : List Nat
deriving DecidableEq, Repr

def invalidTypeMsg : String := "이미지 파일만 업로드 가능합니다"
def savedMsg : String := "영수증이 성공적으로 분석되고 저장되었습니다"
def saveFailMsg : String := "영수증이 분석되었으나 저장 실패 (DB 오류)"
def dummyModeMsg : String := "영수증이 분석되었습니다 (더미 모드 - DB 미연결)"
def notFoundMsg : String := "영수증을 찾을 수 없습니다"

/-- `POST /api/receipts` — `upload_receipt` (main.py:112-179).  `pool` is
whether `db_pool` is non-None; `faults` the fault oracle for the write block;
`t` the value of `datetime.now()`.  Returns the HTTP outcome and the store
after the call. -/
def upload_receipt (pool : Bool) (db : DB) (faults : Nat → Bool) (t : DateTime)
    (file : UploadFileDesc) : Except HTTPError ReceiptResponse × DB :=
  if strStartsWith file.content_type "image/" = false then
    (.error ⟨400, invalidTypeMsg⟩, db)
  else
    let receipt_id := genReceiptId t
    let merchant_name := "스타벅스 강남점"
    let total_amount : Rat := 15000
    let receipt_date := t.date
    let wr :=
      if pool then
        let s := saveReceipt db receipt_id merchant_name total_amount receipt_date faults
        (s.1, if s.2 then savedMsg else saveFailMsg)
      else (db, dummyModeMsg)
    (.ok { receipt_id := receipt_id, merchant_name := merchant_name,
           total_amount := total_amount, date := isoDate receipt_date,
           status := "processed", message := wr.2 }, wr.1)

/-- One item of the JSON returned by `get_receipt`. -/
structure ItemView where
  name : String
  quantity : Nat
  price : Rat
deriving DecidableEq, Repr

/-- The JSON returned by `get_receipt`. -/
structure ReceiptView where
  receipt_id : String
  merchant_name : String
  total_amount : Rat
  date : String
  status : String
  items : List ItemView
deriving DecidableEq, Repr

/-- The dummy fallback response of main.py:232-242 (`DB 미연결 또는 오류 시`). -/
def dummyReceiptView (rid : String) (t : DateTime) : ReceiptView :=
  { receipt_id := rid, merchant_name := "스타벅스 강남점 (더미)", total_amount := 15000,
    date := isoDate t.date, status := "processed",
    items := [⟨"아메리카노", 2, 4500⟩, ⟨"샌드위치", 1, 6000⟩] }

/-- `GET /api/receipts/{receipt_id}` — `get_receipt` (main.py:182-242).
`fault1` / `fault2` say whether the receipt query / the items query raises.
An exception other than `HTTPException` falls through to the dummy response;
the 404 `HTTPException` is re-raised (main.py:225-226). -/
def get_receipt (pool : Bool) (db : DB) (fault1 fault2 : Bool) (t : DateTime)
    (rid : String) : Except HTTPError ReceiptView :=
  if pool then
    if fault1 then .ok (dummyReceiptView rid t)
    else
      match fetchrowReceipt db rid with
      | none => .error ⟨404, notFoundMsg⟩
      | some r =>
        if fault2 then .ok (dummyReceiptView rid t)
        else
          .ok { receipt_id := r.receipt_id, merchant_name := r.merchant_name,
                total_amount := r.total_amount, date := isoDate r.receipt_date,
                status := r.status,
                items := (fetchItemRows db rid).map (fun it => ⟨it.item_name, it.quantity, it.price⟩) }
  else .ok (dummyReceiptView rid t)

/-- The response model `HealthResponse` (main.py:59-64). -/
structure HealthResponse where
  status : String
  timestamp : String
  database : String
  version : String
deriving DecidableEq, Repr

/-- Python string slicing `s[:n]` (by code point). -/
def strTake (n : Nat) (s : String) : String := String.mk (s.data.take n)

/-- `GET /health` — `health_check` (main.py:77-99).  `pingFault = some e`
means `SELECT 1` raised with `str(e) = e`; `none` means it succeeded. -/
def health_check (pool : Bool) (pingFault : Option String) (t : DateTime) : HealthResponse :=
  let db_status :=
    if pool then
      match pingFault with
      | none => "connected"
      | some e => "error: " ++ strTake 50 e
    else "not configured"
  { status := if db_status = "connected" then "healthy" else "degraded",
    timestamp := isoDateTime t,
    database := db_status,
    version := "1.0.0" }

/-- The identifier format required by the spec: `RCP-YYYYMMDD-HHMMSS`
(19 characters, `RCP-`, eight digits, `-`, six digits).  Stated from the
spec's words, to be compared with `genReceiptId`. -/
def idFormatOk (s : String) : Bool :=
  match s.data with
  | 'R' :: 'C' :: 'P' :: '-' :: y1 :: y2 :: y3 :: y4 :: m1 :: m2 :: d1 :: d2 :: '-' ::
      h1 :: h2 :: n1 :: n2 :: s1 :: s2 :: [] =>
    [y1, y2, y3, y4, m1, m2, d1, d2, h1, h2, n1, n2, s1, s2].all Char.isDigit
  | _ => false

/-- The spec's provenance tag. -/
inductive Provenance where
  | persisted
  | synthetic
deriving DecidableEq, Repr

/-- Modelled from the spec: the provenance tag of an intake outcome —
`persisted` when the storage write succeeded, `synthetic` otherwise.  The
source's `ReceiptResponse` carries no explicit tag field; the branch taken is
recorded in the `message` string, from which the tag is recovered. -/
def provenanceOfMessage (m : String) : Provenance :=
  if m = savedMsg then .persisted else .synthetic

example : genReceiptId ⟨2024, 1, 15, 9, 30, 0⟩ = "RCP-20240115-093000" := by decide
example : isoDate ⟨2024, 1, 15⟩ = "2024-01-15" := by decide
example : idFormatOk "RCP-20240115-093000" = true := by decide
example : idFormatOk "RCP-2024015-93000" = false := by decide

/-! ### Helper lemmas -/

lemma digitChar_isDigit (n : Nat) : (digitChar n).isDigit = true := by
  have h : n % 10 < 10 := Nat.mod_lt _ (by norm_num)
  unfold digitChar
  generalize hA : n % 10 = x at *
  interval_cases x <;> decide

lemma digitChar_inj {a b : Nat} (h : digitChar a = digitChar b) : a % 10 = b % 10 := by
  have ha : a % 10 < 10 := Nat.mod_lt _ (by norm_num)
  have hb : b % 10 < 10 := Nat.mod_lt _ (by norm_num)
  unfold digitChar at h
  generalize hA : a % 10 = x at *
  generalize hB : b % 10 = y at *
  interval_cases x <;> interval_cases y <;> first | rfl | exact absurd h (by decide)

lemma error_append_ne_connected (x : String) : "error: " ++ x ≠ "connected" := by
  intro h
  have hd := congrArg String.data h
  rw [String.data_append] at hd
  have h1 : "error: ".data = ['e', 'r', 'r', 'o', 'r', ':', ' '] := rfl
  have h2 : "connected".data = ['c', 'o', 'n', 'n', 'e', 'c', 't', 'e', 'd'] := rfl
  rw [h1, h2] at hd
  simp at hd

/-! ### Claim theorems -/

/-- C6: for every upload whose content type does not start with `image/`,
`upload_receipt` fails with HTTP 400 (`InvalidInput`) and the database state
is unchanged by the rejected request. -/
theorem C6_non_image_rejected_no_write (pool : Bool) (db : DB) (faults : Nat → Bool)
    (t : DateTime) (file : UploadFileDesc)
    (h : strStartsWith file.content_type "image/" = false) :
    upload_receipt pool db faults t file = (.error ⟨400, invalidTypeMsg⟩, db) := by
  simp [upload_receipt, h]

/-- C6 witness: a `text/plain` upload is rejected with 400 and leaves the
store untouched. -/
theorem C6_witness :
    upload_receipt true ⟨[], []⟩ (fun _ => false) ⟨2024, 1, 15, 9, 30, 0⟩
      ⟨"notes.txt", "text/plain", [1, 2]⟩ = (.error ⟨400, invalidTypeMsg⟩, ⟨[], []⟩) :=
  C6_non_image_rejected_no_write true ⟨[], []⟩ (fun _ => false) ⟨2024, 1, 15, 9, 30, 0⟩
    ⟨"notes.txt", "text/plain", [1, 2]⟩ (by decide)

/-- C7: the health check reports `healthy` iff the database status is
`connected` (iff the pool exists and the probe does not raise; otherwise
`degraded`), and when the probe raises with reason `e`, the database field is
`"error: "` followed by the reason truncated to at most 50 characters. -/
theorem C7_health_status (pool : Bool) (pf : Option String) (t : DateTime) :
    ((health_check pool pf t).status = "healthy" ↔ (health_check pool pf t).database = "connected")
  ∧ ((health_check pool pf t).status = "healthy" ↔ pool = true ∧ pf = none)
  ∧ (∀ e, pool = true → pf = some e →
      (health_check pool pf t).database = "error: " ++ strTake 50 e ∧ (strTake 50 e).length ≤ 50) := by
  refine ⟨?_, ?_, ?_⟩
  · cases pool <;> rcases pf with _ | e <;>
      simp [health_check, error_append_ne_connected]
  · cases pool <;> rcases pf with _ | e <;>
      simp [health_check, error_append_ne_connected]
  · intro e hp hf
    subst hp hf
    refine ⟨by simp [health_check], ?_⟩
    show (e.data.take 50).length ≤ 50
    simp

/-- C7 witness: with the pool up and a probe failure whose reason is 60 `x`
characters, the database field is `error: ` plus the first 50 characters. -/
theorem C7_witness :
    (health_check true (some (String.mk (List.replicate 60 'x'))) ⟨2024, 1, 15, 9, 30, 0⟩).database
      = "error: " ++ strTake 50 (String.mk (List.replicate 60 'x'))
  ∧ (strTake 50 (String.mk (List.replicate 60 'x'))).length ≤ 50 :=
  (C7_health_status true (some (String.mk (List.replicate 60 'x'))) ⟨2024, 1, 15, 9, 30, 0⟩).2.2
    (String.mk (List.replicate 60 'x')) rfl rfl

/-- C9: the intake result does not depend on the uploaded file's content or
name — two uploads at the same clock time with any two valid image files (and
any pool states, stores and fault schedules) agree on identifier, merchant
name, total amount, date and status. -/
theorem C9_result_file_independent (p1 p2 : Bool) (db1 db2 : DB) (fl1 fl2 : Nat → Bool)
    (t : DateTime) (f1 f2 : UploadFileDesc) (r1 r2 : ReceiptResponse)
    (e1 : (upload_receipt p1 db1 fl1 t f1).1 = .ok r1)
    (e2 : (upload_receipt p2 db2 fl2 t f2).1 = .ok r2) :
    r1.receipt_id = r2.receipt_id ∧ r1.merchant_name = r2.merchant_name ∧
    r1.total_amount = r2.total_amount ∧ r1.date = r2.date ∧ r1.status = r2.status := by
  unfold upload_receipt at e1 e2
  split at e1
  · simp at e1
  · split at e2
    · simp at e2
    · simp only [Except.ok.injEq] at e1 e2
      subst e1; subst e2
      exact ⟨rfl, rfl, rfl, rfl, rfl⟩

/-- C9 witness: a JPEG with one content and a PNG with another, uploaded at
the same second against different stores, yield the same identifier, merchant,
total, date and status. -/
theorem C9_witness :
    ("RCP-20240115-093000" : String) = "RCP-20240115-093000" ∧
    ("스타벅스 강남점" : String) = "스타벅스 강남점" ∧ (15000 : Rat) = 15000 ∧
    ("2024-01-15" : String) = "2024-01-15" ∧ ("processed" : String) = "processed" := by
  have h := C9_result_file_independent true false ⟨[], []⟩ ⟨[], []⟩ (fun _ => false) (fun _ => true)
    ⟨2024, 1, 15, 9, 30, 0⟩ ⟨"a.jpg", "image/jpeg", [0]⟩ ⟨"b.png", "image/png", [1, 2]⟩
    ⟨"RCP-20240115-093000", "스타벅스 강남점", 15000, "2024-01-15", "processed", savedMsg⟩
    ⟨"RCP-20240115-093000", "스타벅스 강남점", 15000, "2024-01-15", "processed", dummyModeMsg⟩
    (by decide) (by decide)
  exact h

/-- C10: in degraded mode — pool absent, or a storage error during the
receipt query, or one during the items query — `get_receipt` succeeds with
the dummy response whose `receipt_id` echoes the requested identifier
verbatim, for every identifier and regardless of the store's contents. -/
theorem C10_degraded_echoes_id (db db' : DB) (f1 f2 : Bool) (t : DateTime) (rid : String) :
    get_receipt false db f1 f2 t rid = .ok (dummyReceiptView rid t)
  ∧ get_receipt true db true f2 t rid = .ok (dummyReceiptView rid t)
  ∧ (∀ r, fetchrowReceipt db rid = some r →
      get_receipt true db false true t rid = .ok (dummyReceiptView rid t))
  ∧ (dummyReceiptView rid t).receipt_id = rid
  ∧ get_receipt false db f1 f2 t rid = get_receipt false db' f1 f2 t rid := by
  refine ⟨by simp [get_receipt], by simp [get_receipt], ?_, rfl, by simp [get_receipt]⟩
  intro r hr
  simp [get_receipt, hr]

/-- C10 witness: the never-created identifier `RCP-nonexistent` retrieved
with the pool down, and an existing identifier retrieved under an items-query
fault, both yield the verbatim-echoing dummy response. -/
theorem C10_witness :
    get_receipt false ⟨[], []⟩ false false ⟨2024, 1, 15, 9, 30, 0⟩ "RCP-nonexistent"
      = .ok (dummyReceiptView "RCP-nonexistent" ⟨2024, 1, 15, 9, 30, 0⟩)
  ∧ get_receipt true
      ⟨[⟨"RCP-20240115-093000", "스타벅스 강남점", 15000, ⟨2024, 1, 15⟩, "u", "processed"⟩], []⟩
      false true ⟨2024, 1, 15, 9, 30, 0⟩ "RCP-20240115-093000"
      = .ok (dummyReceiptView "RCP-20240115-093000" ⟨2024, 1, 15, 9, 30, 0⟩) :=
  ⟨(C10_degraded_echoes_id ⟨[], []⟩ ⟨[], []⟩ false false ⟨2024, 1, 15, 9, 30, 0⟩
      "RCP-nonexistent").1,
   (C10_degraded_echoes_id
      ⟨[⟨"RCP-20240115-093000", "스타벅스 강남점", 15000, ⟨2024, 1, 15⟩, "u", "processed"⟩], []⟩
      ⟨[], []⟩ false true ⟨2024, 1, 15, 9, 30, 0⟩ "RCP-20240115-093000").2.2.1
      ⟨"RCP-20240115-093000", "스타벅스 강남점", 15000, ⟨2024, 1, 15⟩, "u", "processed"⟩ (by decide)⟩

/-- C4: the only failures the two endpoints surface are `InvalidInput`
(400, non-image upload) and `ReceiptNotFound` (404); an image upload always
succeeds whatever the storage does; a 404 arises only when the pool is up,
the receipt query does not raise, and the identifier is absent; and retrieval
with the pool down never fails. -/
theorem C4_failure_taxonomy (pool f1 f2 : Bool) (db : DB) (faults : Nat → Bool)
    (t : DateTime) (file : UploadFileDesc) (rid : String) :
    (∀ e, (upload_receipt pool db faults t file).1 = .error e →
        e = ⟨400, invalidTypeMsg⟩ ∧ strStartsWith file.content_type "image/" = false)
  ∧ (strStartsWith file.content_type "image/" = true →
        ∃ r, (upload_receipt pool db faults t file).1 = .ok r)
  ∧ (∀ e, get_receipt pool db f1 f2 t rid = .error e →
        e = ⟨404, notFoundMsg⟩ ∧ pool = true ∧ f1 = false ∧ fetchrowReceipt db rid = none)
  ∧ (pool = false → get_receipt pool db f1 f2 t rid = .ok (dummyReceiptView rid t)) := by
  refine ⟨?_, ?_, ?_, ?_⟩
  · intro e he
    unfold upload_receipt at he
    split at he
    · rename_i hc
      simp at he
      exact ⟨he.symm, hc⟩
    · simp at he
  · intro himg
    unfold upload_receipt
    rw [himg]
    simp
  · intro e he
    unfold get_receipt at he
    split at he
    · rename_i hp
      split at he
      · simp at he
      · rename_i hf1
        split at he
        · rename_i heq
          simp at he
          exact ⟨he.symm, hp, by simpa using hf1, heq⟩
        · split at he <;> simp at he
    · simp at he
  · intro hp
    subst hp
    simp [get_receipt]

/-- C4 witness: retrieving a missing identifier with storage up and healthy
yields exactly 404, and retrieving with the pool down yields the synthetic
success. -/
theorem C4_witness :
    ((⟨404, notFoundMsg⟩ : HTTPError) = ⟨404, notFoundMsg⟩ ∧ true = true ∧ false = false ∧
      fetchrowReceipt ⟨[], []⟩ "RCP-20240115-093000" = none)
  ∧ get_receipt false ⟨[], []⟩ false false ⟨2024, 1, 15, 9, 30, 0⟩ "RCP-x"
      = .ok (dummyReceiptView "RCP-x" ⟨2024, 1, 15, 9, 30, 0⟩) :=
  ⟨(C4_failure_taxonomy true false false ⟨[], []⟩ (fun _ => false) ⟨2024, 1, 15, 9, 30, 0⟩
      ⟨"a.jpg", "image/jpeg", []⟩ "RCP-20240115-093000").2.2.1 ⟨404, notFoundMsg⟩ (by decide),
   (C4_failure_taxonomy false false false ⟨[], []⟩ (fun _ => false) ⟨2024, 1, 15, 9, 30, 0⟩
      ⟨"a.jpg", "image/jpeg", []⟩ "RCP-x").2.2.2 rfl⟩

/-- The item-insert loop never touches the `receipts` table. -/
lemma insertItems_receipts (rid : String) (its : List (String × Nat × Rat))
    (faults : Nat → Bool) : ∀ (db : DB) (k : Nat),
    (insertItems db rid its faults k).1.receipts = db.receipts := by
  induction its with
  | nil => intro db k; simp [insertItems]
  | cons hd tl ih =>
    intro db k
    obtain ⟨nm, q, p⟩ := hd
    by_cases hf : faults k = true
    · simp [insertItems, hf]
    · simp only [Bool.not_eq_true] at hf
      simp [insertItems, hf, ih]

/-- When the receipt insert itself succeeds, the receipt row is in the
resulting store, whatever the item inserts do. -/
lemma saveReceipt_receipts (db : DB) (rid mname : String) (tot : Rat) (rdate : Date)
    (faults : Nat → Bool) (h0 : faults 0 = false) :
    (saveReceipt db rid mname tot rdate faults).1.receipts =
      db.receipts ++ [⟨rid, mname, tot, rdate, "s3://receipts/" ++ rid ++ ".jpg", "processed"⟩] := by
  simp [saveReceipt, h0, insertItems_receipts]

/-- C1 counterexample: store initially empty, the first item insert raises
(`faults 1`).  The upload reports the save failure, yet the receipt row has
persisted with no items, and a subsequent retrieval of the identifier returns
it (HTTP 200 with an empty item list) — not NotFound.  This refutes the
claimed all-or-nothing transaction: main.py:145-162 runs each statement as
its own autocommit. -/
theorem C1_counterexample :
    (upload_receipt true ⟨[], []⟩ (fun k => k == 1) ⟨2024, 1, 15, 9, 30, 0⟩
        ⟨"receipt.jpg", "image/jpeg", []⟩).1
      = .ok ⟨"RCP-20240115-093000", "스타벅스 강남점", 15000, "2024-01-15", "processed", saveFailMsg⟩
  ∧ (upload_receipt true ⟨[], []⟩ (fun k => k == 1) ⟨2024, 1, 15, 9, 30, 0⟩
        ⟨"receipt.jpg", "image/jpeg", []⟩).2
      = ⟨[⟨"RCP-20240115-093000", "스타벅스 강남점", 15000, ⟨2024, 1, 15⟩,
           "s3://receipts/RCP-20240115-093000.jpg", "processed"⟩], []⟩
  ∧ get_receipt true
      (upload_receipt true ⟨[], []⟩ (fun k => k == 1) ⟨2024, 1, 15, 9, 30, 0⟩
        ⟨"receipt.jpg", "image/jpeg", []⟩).2
      false false ⟨2024, 1, 15, 9, 30, 0⟩ "RCP-20240115-093000"
      = .ok ⟨"RCP-20240115-093000", "스타벅스 강남점", 15000, "2024-01-15", "processed", []⟩ := by
  exact ⟨by decide, by decide, by decide⟩

/-- C1 amended: the write block of `upload_receipt` is not atomic.  Once the
receipt insert has run (statement 0 does not raise), the receipt row persists
even when an item insert raises — the save is reported failed, yet a
subsequent fetch of the identifier does not return NotFound: it finds the
receipt, and retrieval never fails for it. -/
theorem C1_partial_write_persists (db : DB) (rid mname : String) (tot : Rat)
    (rdate : Date) (faults : Nat → Bool) (t : DateTime) (h0 : faults 0 = false) :
    ((faults 1 = true ∨ faults 2 = true) → (saveReceipt db rid mname tot rdate faults).2 = false)
  ∧ fetchrowReceipt (saveReceipt db rid mname tot rdate faults).1 rid ≠ none
  ∧ ∀ e, get_receipt true (saveReceipt db rid mname tot rdate faults).1 false false t rid ≠ .error e := by
  have hrow : fetchrowReceipt (saveReceipt db rid mname tot rdate faults).1 rid ≠ none := by
    intro hnone
    unfold fetchrowReceipt at hnone
    rw [saveReceipt_receipts db rid mname tot rdate faults h0] at hnone
    have := List.find?_eq_none.mp hnone
      ⟨rid, mname, tot, rdate, "s3://receipts/" ++ rid ++ ".jpg", "processed"⟩
      (by simp)
    simp at this
  refine ⟨?_, hrow, ?_⟩
  · intro hf
    cases hf1 : faults 1 with
    | true => simp [saveReceipt, h0, insertItems, dummyItems, hf1]
    | false =>
      cases hf2 : faults 2 with
      | true => simp [saveReceipt, h0, insertItems, dummyItems, hf1, hf2]
      | false => rw [hf1, hf2] at hf; simp at hf
  · intro e
    obtain ⟨r, hr⟩ := Option.ne_none_iff_exists'.mp hrow
    simp [get_receipt, hr]

/-- C1 amended witness: concrete instance of the partial-write theorem at the
counterexample's input. -/
theorem C1_partial_write_witness :
    ((((fun k => k == 1) 1) = true ∨ ((fun k => k == 1) 2) = true) →
       (saveReceipt ⟨[], []⟩ "RCP-20240115-093000" "스타벅스 강남점" 15000 ⟨2024, 1, 15⟩
         (fun k => k == 1)).2 = false)
  ∧ fetchrowReceipt (saveReceipt ⟨[], []⟩ "RCP-20240115-093000" "스타벅스 강남점" 15000
      ⟨2024, 1, 15⟩ (fun k => k == 1)).1 "RCP-20240115-093000" ≠ none
  ∧ ∀ e, get_receipt true (saveReceipt ⟨[], []⟩ "RCP-20240115-093000" "스타벅스 강남점" 15000
      ⟨2024, 1, 15⟩ (fun k => k == 1)).1 false false ⟨2024, 1, 15, 9, 30, 0⟩
      "RCP-20240115-093000" ≠ .error e :=
  C1_partial_write_persists ⟨[], []⟩ "RCP-20240115-093000" "스타벅스 강남점" 15000
    ⟨2024, 1, 15⟩ (fun k => k == 1) ⟨2024, 1, 15, 9, 30, 0⟩ (by decide)

/-- The character data of a generated identifier, digit by digit. -/
lemma genReceiptId_data (t : DateTime) : (genReceiptId t).data =
    'R' :: 'C' :: 'P' :: '-' :: digitChar (t.year / 1000) :: digitChar (t.year / 100) ::
    digitChar (t.year / 10) :: digitChar t.year :: digitChar (t.month / 10) :: digitChar t.month ::
    digitChar (t.day / 10) :: digitChar t.day :: '-' :: digitChar (t.hour / 10) :: digitChar t.hour ::
    digitChar (t.minute / 10) :: digitChar t.minute :: digitChar (t.second / 10) :: digitChar t.second :: [] := by
  show ("RCP-" ++ String.mk (fmtTimestampChars t)).data = _
  rw [String.data_append]
  have h1 : "RCP-".data = ['R', 'C', 'P', '-'] := rfl
  rw [h1]
  simp [fmtTimestampChars, pad4, pad2]

/-- On valid datetimes the identifier generator is injective: equal identifiers
force equal second-precision timestamps. -/
lemma genReceiptId_inj {t1 t2 : DateTime} (h1 : t1.Valid) (h2 : t2.Valid)
    (h : genReceiptId t1 = genReceiptId t2) : t1 = t2 := by
  have hd := congrArg String.data h
  rw [genReceiptId_data, genReceiptId_data] at hd
  simp only [List.cons.injEq, and_true] at hd
  obtain ⟨-, -, -, -, e1, e2, e3, e4, e5, e6, e7, e8, -, e9, e10, e11, e12, e13, e14⟩ := hd
  obtain ⟨y1, mo1, d1, hh1, mi1, s1⟩ := t1
  obtain ⟨y2, mo2, d2, hh2, mi2, s2⟩ := t2
  unfold DateTime.Valid at h1 h2
  simp only at h1 h2 e1 e2 e3 e4 e5 e6 e7 e8 e9 e10 e11 e12 e13 e14
  have g1 := digitChar_inj e1
  have g2 := digitChar_inj e2
  have g3 := digitChar_inj e3
  have g4 := digitChar_inj e4
  have g5 := digitChar_inj e5
  have g6 := digitChar_inj e6
  have g7 := digitChar_inj e7
  have g8 := digitChar_inj e8
  have g9 := digitChar_inj e9
  have g10 := digitChar_inj e10
  have g11 := digitChar_inj e11
  have g12 := digitChar_inj e12
  have g13 := digitChar_inj e13
  have g14 := digitChar_inj e14
  simp only [DateTime.mk.injEq]
  refine ⟨by omega, by omega, by omega, by omega, by omega, by omega⟩

/-- If the upload returns a response, its identifier is the one generated from
the request's clock reading. -/
lemma upload_ok_receipt_id {pool : Bool} {db : DB} {faults : Nat → Bool} {t : DateTime}
    {file : UploadFileDesc} {r : ReceiptResponse}
    (e : (upload_receipt pool db faults t file).1 = .ok r) :
    r.receipt_id = genReceiptId t := by
  unfold upload_receipt at e
  split at e
  · simp at e
  · simp only [Except.ok.injEq] at e
    subst e
    rfl

/-- C3 counterexample: two intakes performed within the same clock second
(`2024-01-15 09:30:00`), with different files, both succeed and return the
SAME identifier — the returned identifiers are not pairwise distinct. -/
theorem C3_counterexample :
    Except.map ReceiptResponse.receipt_id (upload_receipt true ⟨[], []⟩ (fun _ => false)
      ⟨2024, 1, 15, 9, 30, 0⟩ ⟨"a.jpg", "image/jpeg", [0]⟩).1 = .ok "RCP-20240115-093000"
  ∧ Except.map ReceiptResponse.receipt_id (upload_receipt true ⟨[], []⟩ (fun _ => false)
      ⟨2024, 1, 15, 9, 30, 0⟩ ⟨"b.png", "image/png", [1, 2]⟩).1 = .ok "RCP-20240115-093000" :=
  ⟨by decide, by decide⟩

/-- C3 amended: identifiers returned by two intakes are equal exactly when the
two requests' clock readings agree at second precision — intakes in the same
second collide, intakes in different (valid) seconds get distinct identifiers. -/
theorem C3_id_distinct_iff_different_second (t1 t2 : DateTime) (pool1 pool2 : Bool)
    (db1 db2 : DB) (fl1 fl2 : Nat → Bool) (f1 f2 : UploadFileDesc) (r1 r2 : ReceiptResponse)
    (h1 : t1.Valid) (h2 : t2.Valid)
    (e1 : (upload_receipt pool1 db1 fl1 t1 f1).1 = .ok r1)
    (e2 : (upload_receipt pool2 db2 fl2 t2 f2).1 = .ok r2) :
    r1.receipt_id = r2.receipt_id ↔ t1 = t2 := by
  rw [upload_ok_receipt_id e1, upload_ok_receipt_id e2]
  constructor
  · exact genReceiptId_inj h1 h2
  · intro h; rw [h]

/-- C3 amended witness: intakes at `09:30:00` and `09:30:01` of the same day —
their identifiers are equal iff the timestamps are equal (they are not). -/
theorem C3_witness :
    ("RCP-20240115-093000" = "RCP-20240115-093001") ↔
      (⟨2024, 1, 15, 9, 30, 0⟩ : DateTime) = ⟨2024, 1, 15, 9, 30, 1⟩ :=
  C3_id_distinct_iff_different_second ⟨2024, 1, 15, 9, 30, 0⟩ ⟨2024, 1, 15, 9, 30, 1⟩
    true true ⟨[], []⟩ ⟨[], []⟩ (fun _ => false) (fun _ => false)
    ⟨"a.jpg", "image/jpeg", [0]⟩ ⟨"b.png", "image/png", [1]⟩
    ⟨"RCP-20240115-093000", "스타벅스 강남점", 15000, "2024-01-15", "processed", savedMsg⟩
    ⟨"RCP-20240115-093001", "스타벅스 강남점", 15000, "2024-01-15", "processed", savedMsg⟩
    (by decide) (by decide) (by decide) (by decide)

/-- Every generated identifier matches `RCP-YYYYMMDD-HHMMSS`. -/
lemma idFormatOk_genReceiptId (t : DateTime) : idFormatOk (genReceiptId t) = true := by
  have hd := genReceiptId_data t
  unfold idFormatOk
  rw [hd]
  simp [digitChar_isDigit]

/-- If the upload returns a response, its message is one of the three fixed
strings: saved, save-failed, or dummy mode. -/
lemma upload_ok_message {pool : Bool} {db : DB} {faults : Nat → Bool} {t : DateTime}
    {file : UploadFileDesc} {r : ReceiptResponse}
    (e : (upload_receipt pool db faults t file).1 = .ok r) :
    r.message = savedMsg ∨ r.message = saveFailMsg ∨ r.message = dummyModeMsg := by
  unfold upload_receipt at e
  split at e
  · simp at e
  · simp only [Except.ok.injEq] at e
    subst e
    cases pool
    · right; right; rfl
    · by_cases hs : (saveReceipt db (genReceiptId t) "스타벅스 강남점" 15000 t.date faults).2 = true
      · left
        simp [hs]
      · right; left
        simp [hs]

/-- C5: every successful intake (any pool state, store, fault schedule, image
or not — whenever a response comes back) carries an identifier of the required
`RCP-YYYYMMDD-HHMMSS` shape, a provenance tag that is exactly `persisted` or
`synthetic`, and one of the three fixed provenance messages. -/
theorem C5_id_format_and_tag (pool : Bool) (db : DB) (faults : Nat → Bool) (t : DateTime)
    (file : UploadFileDesc) (r : ReceiptResponse)
    (e : (upload_receipt pool db faults t file).1 = .ok r) :
    idFormatOk r.receipt_id = true
  ∧ (provenanceOfMessage r.message = .persisted ∨ provenanceOfMessage r.message = .synthetic)
  ∧ (r.message = savedMsg ∨ r.message = saveFailMsg ∨ r.message = dummyModeMsg) := by
  refine ⟨?_, ?_, upload_ok_message e⟩
  · rw [upload_ok_receipt_id e]
    exact idFormatOk_genReceiptId t
  · cases h : provenanceOfMessage r.message
    · exact Or.inl rfl
    · exact Or.inr rfl

/-- C5 witness: a concrete successful upload has a well-formed identifier and
a `persisted`/`synthetic` tag. -/
theorem C5_witness :
    idFormatOk ("RCP-20240115-093000" : String) = true
  ∧ (provenanceOfMessage savedMsg = .persisted ∨ provenanceOfMessage savedMsg = .synthetic)
  ∧ ((savedMsg : String) = savedMsg ∨ savedMsg = saveFailMsg ∨ savedMsg = dummyModeMsg) :=
  C5_id_format_and_tag true ⟨[], []⟩ (fun _ => false) ⟨2024, 1, 15, 9, 30, 0⟩
    ⟨"receipt.jpg", "image/jpeg", []⟩
    ⟨"RCP-20240115-093000", "스타벅스 강남점", 15000, "2024-01-15", "processed", savedMsg⟩
    (by decide)

/-- C8 counterexample: the merchant name carried by intake's result is the
source's literal `"스타벅스 강남점"`, not `"Sample Merchant"` as the claim
states. -/
theorem C8_counterexample :
    Except.map ReceiptResponse.merchant_name (upload_receipt true ⟨[], []⟩ (fun _ => false)
      ⟨2024, 1, 15, 9, 30, 0⟩ ⟨"receipt.jpg", "image/jpeg", []⟩).1 = .ok "스타벅스 강남점"
  ∧ ("스타벅스 강남점" : String) ≠ "Sample Merchant" :=
  ⟨by decide, by decide⟩

/-- C8 amended: for every upload that returns a response, the analysis output
is the fixed dummy data — merchant `"스타벅스 강남점"`, total `15000`, status
`processed`, the request date, an `RCP-YYYYMMDD-HHMMSS`-shaped identifier —
and the item list written is the fixed two-item dummy list. -/
theorem C8_dummy_analysis (pool : Bool) (db : DB) (faults : Nat → Bool) (t : DateTime)
    (file : UploadFileDesc) (r : ReceiptResponse)
    (e : (upload_receipt pool db faults t file).1 = .ok r) :
    r.merchant_name = "스타벅스 강남점" ∧ r.total_amount = 15000 ∧ r.status = "processed"
  ∧ r.date = isoDate t.date ∧ idFormatOk r.receipt_id = true
  ∧ dummyItems = [("아메리카노", 2, 4500), ("샌드위치", 1, 6000)] ∧ dummyItems.length = 2 := by
  have hid : idFormatOk r.receipt_id = true := by
    rw [upload_ok_receipt_id e]
    exact idFormatOk_genReceiptId t
  unfold upload_receipt at e
  split at e
  · simp at e
  · simp only [Except.ok.injEq] at e
    subst e
    exact ⟨rfl, rfl, rfl, rfl, hid, rfl, rfl⟩

/-- C8 amended witness: concrete upload instance of the dummy-analysis
theorem. -/
theorem C8_witness :
    ("스타벅스 강남점" : String) = "스타벅스 강남점" ∧ (15000 : Rat) = 15000
  ∧ ("processed" : String) = "processed"
  ∧ ("2024-01-15" : String) = isoDate (DateTime.date ⟨2024, 1, 15, 9, 30, 0⟩)
  ∧ idFormatOk ("RCP-20240115-093000" : String) = true
  ∧ dummyItems = [("아메리카노", 2, 4500), ("샌드위치", 1, 6000)] ∧ dummyItems.length = 2 :=
  C8_dummy_analysis true ⟨[], []⟩ (fun _ => false) ⟨2024, 1, 15, 9, 30, 0⟩
    ⟨"receipt.jpg", "image/jpeg", []⟩
    ⟨"RCP-20240115-093000", "스타벅스 강남점", 15000, "2024-01-15", "processed", savedMsg⟩
    (by decide)

/-- `find?` skips a prefix on which the predicate is everywhere false. -/
lemma find?_append_of_none {α : Type} {l1 l2 : List α} {p : α → Bool}
    (h : ∀ a ∈ l1, p a = false) : (l1 ++ l2).find? p = l2.find? p := by
  induction l1 with
  | nil => rfl
  | cons x xs ih =>
    have hx : p x = false := h x (List.mem_cons_self x xs)
    rw [List.cons_append, List.find?_cons_of_neg _ (by simp [hx]),
        ih (fun a ha => h a (List.mem_cons_of_mem x ha))]

/-- C2: round trip.  If the pool is up, no statement of the write block
raises, and the generated identifier is fresh in both tables, then the upload
succeeds with the saved message and a subsequent healthy retrieval of the
returned identifier yields exactly the written receipt — same merchant, total,
date and status — and exactly the two written items, in insertion order. -/
theorem C2_round_trip (db : DB) (faults : Nat → Bool) (t : DateTime) (file : UploadFileDesc)
    (himg : strStartsWith file.content_type "image/" = true)
    (hnf : ∀ k, faults k = false)
    (hfr : ∀ r ∈ db.receipts, r.receipt_id ≠ genReceiptId t)
    (hfi : ∀ it ∈ db.items, it.receipt_id ≠ genReceiptId t) :
    (upload_receipt true db faults t file).1 =
      .ok ⟨genReceiptId t, "스타벅스 강남점", 15000, isoDate t.date, "processed", savedMsg⟩
  ∧ get_receipt true (upload_receipt true db faults t file).2 false false t (genReceiptId t) =
      .ok ⟨genReceiptId t, "스타벅스 강남점", 15000, isoDate t.date, "processed",
           [⟨"아메리카노", 2, 4500⟩, ⟨"샌드위치", 1, 6000⟩]⟩ := by
  have hsave : saveReceipt db (genReceiptId t) "스타벅스 강남점" 15000 t.date faults =
      (⟨db.receipts ++ [⟨genReceiptId t, "스타벅스 강남점", 15000, t.date,
          "s3://receipts/" ++ genReceiptId t ++ ".jpg", "processed"⟩],
        db.items ++ [⟨genReceiptId t, "아메리카노", 2, 4500⟩,
          ⟨genReceiptId t, "샌드위치", 1, 6000⟩]⟩, true) := by
    simp [saveReceipt, insertItems, dummyItems, hnf 0, hnf 1, hnf 2]
  have hup : upload_receipt true db faults t file =
      (.ok ⟨genReceiptId t, "스타벅스 강남점", 15000, isoDate t.date, "processed", savedMsg⟩,
       ⟨db.receipts ++ [⟨genReceiptId t, "스타벅스 강남점", 15000, t.date,
          "s3://receipts/" ++ genReceiptId t ++ ".jpg", "processed"⟩],
        db.items ++ [⟨genReceiptId t, "아메리카노", 2, 4500⟩,
          ⟨genReceiptId t, "샌드위치", 1, 6000⟩]⟩) := by
    unfold upload_receipt
    rw [himg]
    simp [hsave]
  refine ⟨by rw [hup], ?_⟩
  rw [hup]
  have hfind : fetchrowReceipt
      ⟨db.receipts ++ [⟨genReceiptId t, "스타벅스 강남점", 15000, t.date,
          "s3://receipts/" ++ genReceiptId t ++ ".jpg", "processed"⟩],
        db.items ++ [⟨genReceiptId t, "아메리카노", 2, 4500⟩,
          ⟨genReceiptId t, "샌드위치", 1, 6000⟩]⟩ (genReceiptId t) =
      some ⟨genReceiptId t, "스타벅스 강남점", 15000, t.date,
          "s3://receipts/" ++ genReceiptId t ++ ".jpg", "processed"⟩ := by
    unfold fetchrowReceipt
    rw [find?_append_of_none (fun r hr => by simpa using hfr r hr)]
    simp
  have hitems : fetchItemRows
      ⟨db.receipts ++ [⟨genReceiptId t, "스타벅스 강남점", 15000, t.date,
          "s3://receipts/" ++ genReceiptId t ++ ".jpg", "processed"⟩],
        db.items ++ [⟨genReceiptId t, "아메리카노", 2, 4500⟩,
          ⟨genReceiptId t, "샌드위치", 1, 6000⟩]⟩ (genReceiptId t) =
      [⟨genReceiptId t, "아메리카노", 2, 4500⟩, ⟨genReceiptId t, "샌드위치", 1, 6000⟩] := by
    unfold fetchItemRows
    rw [List.filter_append,
        List.filter_eq_nil_iff.mpr (fun it hit => by simpa using hfi it hit)]
    simp
  simp [get_receipt, hfind, hitems]

/-- C2 witness: concrete round trip on an empty store — the upload reports
the saved message and retrieval returns the exact written receipt and items. -/
theorem C2_witness :
    ((upload_receipt true ⟨[], []⟩ (fun _ => false) ⟨2024, 1, 15, 9, 30, 0⟩
        ⟨"receipt.jpg", "image/jpeg", []⟩).1 =
      .ok ⟨genReceiptId ⟨2024, 1, 15, 9, 30, 0⟩, "스타벅스 강남점", 15000,
           isoDate (DateTime.date ⟨2024, 1, 15, 9, 30, 0⟩), "processed", savedMsg⟩)
  ∧ get_receipt true (upload_receipt true ⟨[], []⟩ (fun _ => false) ⟨2024, 1, 15, 9, 30, 0⟩
        ⟨"receipt.jpg", "image/jpeg", []⟩).2 false false ⟨2024, 1, 15, 9, 30, 0⟩
        (genReceiptId ⟨2024, 1, 15, 9, 30, 0⟩) =
      .ok ⟨genReceiptId ⟨2024, 1, 15, 9, 30, 0⟩, "스타벅스 강남점", 15000,
           isoDate (DateTime.date ⟨2024, 1, 15, 9, 30, 0⟩), "processed",
           [⟨"아메리카노", 2, 4500⟩, ⟨"샌드위치", 1, 6000⟩]⟩ :=
  C2_round_trip ⟨[], []⟩ (fun _ => false) ⟨2024, 1, 15, 9, 30, 0⟩
    ⟨"receipt.jpg", "image/jpeg", []⟩ (by decide) (fun _ => rfl)
    (fun r hr => by simp at hr) (fun it hit => by simp at hit)
